import Mathlib

/-
Verification of the arbitrage validation core of the arbitrage-finder
repository (src/arbitrage_validator.py and src/utils.py), shallowly embedded
in Lean 4.

Modelling conventions:
* Python floats are embedded as rationals (ℚ): the claims under study are
  about the real-arithmetic behaviour of the algorithms, and every concrete
  input used below is far from any binary-rounding boundary.
* Python's round(x, 2) (round-half-to-even to cents) is `round2`.
* Python exceptions are embedded as `Except Unit`: `.error ()` marks a raised
  TypeError/ValueError.
* Reporting-only strings (the human-readable `reason` values) and the
  reporting-only fields `scenarios_analyzed` / `all_scenario_profits` of the
  result dictionaries are omitted; no control flow depends on them.

The two lines below only restore definitional unfolding of the library's
rational arithmetic so that concrete runs of the embedded code can be checked
by `decide`; they have no effect on kernel-level soundness.
-/

set_option allowUnsafeReducibility true

attribute [semireducible] Rat.add Rat.mul Rat.sub Rat.inv

/-- Round-half-to-even to the nearest integer, as Python's builtin round. -/
def rhe (q : ℚ) : ℤ :=
  let f : ℤ := ⌊q⌋
  let frac : ℚ := q - f
  if frac < 1/2 then f
  else if frac > 1/2 then f + 1
  else if f % 2 = 0 then f else f + 1

/-- Python's round(x, 2): round to the nearest cent, ties to even. -/
def round2 (q : ℚ) : ℚ := (rhe (q * 100) : ℚ) / 100

/-- Does `hay` start with `needle`? (chars compared one by one). -/
def listStarts (needle hay : List Char) : Bool :=
  match needle, hay with
  | [], _ => true
  | _ :: _, [] => false
  | a :: as, b :: bs => a == b && listStarts as bs

/-- Substring containment on char lists: Python's `needle in hay`. -/
def listHasSub (needle hay : List Char) : Bool :=
  match hay with
  | [] => needle.isEmpty
  | _ :: t => listStarts needle hay || listHasSub needle t

/-- Python's `needle in hay` for strings. -/
def strIn (needle hay : String) : Bool := listHasSub needle.data hay.data

/-- Replace every (non-overlapping, leftmost-first) occurrence of `needle` by
`repl`, as Python's str.replace with a non-empty needle.  The fuel argument is
only there to make the recursion structural; each step consumes at least one
character of `hay`, so fuel = length hay never runs out. -/
def listReplaceAux (needle repl : List Char) : ℕ → List Char → List Char
  | 0, hay => hay
  | fuel + 1, hay =>
    match hay with
    | [] => []
    | c :: t =>
      if needle ≠ [] ∧ listStarts needle (c :: t) = true then
        repl ++ listReplaceAux needle repl fuel ((c :: t).drop needle.length)
      else
        c :: listReplaceAux needle repl fuel t

/-- Python str.replace (all occurrences) for strings. -/
def strReplace (s needle repl : String) : String :=
  String.mk (listReplaceAux needle.data repl.data s.data.length s.data)

/-- Python str.lower (ASCII, as all inputs here are ASCII). -/
def strLower (s : String) : String := String.mk (s.data.map Char.toLower)

/-- Python str.upper (ASCII, as all inputs here are ASCII). -/
def strUpper (s : String) : String := String.mk (s.data.map Char.toUpper)

/-- Whitespace stripped by Python str.strip. -/
def isSpaceChar (c : Char) : Bool := c == ' ' || c == '\t' || c == '\n' || c == '\r'

/-- Python str.strip: remove whitespace at both ends. -/
def strStrip (s : String) : String :=
  String.mk (((s.data.dropWhile isSpaceChar).reverse.dropWhile isSpaceChar).reverse)

/-- normalize_team_name from src/utils.py: lowercase, strip, drop the
"fc"/"team" affixes and rewrite "united" to "utd". -/
def normalize_team_name (name : String) : String :=
  if name == "" then ""
  else
    let n0 := strStrip (strLower name)
    let n1 := strReplace (strReplace n0 "fc " "") " fc" ""
    let n2 := strReplace (strReplace n1 "team " "") " team" ""
    strReplace n2 "united" "utd"

/-- identify_outcome_type from src/utils.py: classify a raw outcome label as
HOME / AWAY / DRAW / OTHER.  Only the team names go through
normalize_team_name; the label itself is merely lowercased. -/
def identify_outcome_type (outcome_name home_team away_team : String) : String :=
  if outcome_name == "" then "OTHER"
  else
    let ol := strLower outcome_name
    let hn := normalize_team_name home_team
    let an := normalize_team_name away_team
    if strIn "draw" ol || strIn "tie" ol then "DRAW"
    else if hn != "" && strIn hn ol then "HOME"
    else if strIn "home" ol then "HOME"
    else if an != "" && strIn an ol then "AWAY"
    else if strIn "away" ol || strIn "road" ol then "AWAY"
    else "OTHER"

/-- Decidable equality for embedded fallible results. -/
instance exceptDecEq {ε α : Type} [DecidableEq ε] [DecidableEq α] :
    DecidableEq (Except ε α) := fun x y =>
  match x, y with
  | .ok a, .ok b =>
    if h : a = b then isTrue (by rw [h]) else isFalse (fun hh => h (Except.ok.inj hh))
  | .error a, .error b =>
    if h : a = b then isTrue (by rw [h]) else isFalse (fun hh => h (Except.error.inj hh))
  | .ok _, .error _ => isFalse (fun hh => Except.noConfusion hh)
  | .error _, .ok _ => isFalse (fun hh => Except.noConfusion hh)

/-- OutcomeType enum from src/arbitrage_validator.py. -/
inductive OutcomeType where
  | HOME_WIN
  | AWAY_WIN
  | DRAW
  | HOME_SPREAD_COVER
  | AWAY_SPREAD_COVER
  | OVER
  | UNDER
deriving DecidableEq

/-- A game scenario: either a GameScenario with final scores (team sports) or
one of the literal strings "A_WINS" / "B_WINS" / "DRAW" (combat sports). -/
inductive Scenario where
  | score (home away : ℤ)
  | tag (s : String)
deriving DecidableEq

/-- GameScenario.point_differential (home_score - away_score); 0 for the
string scenarios, which never reach it in the source. -/
def Scenario.point_differential : Scenario → ℤ
  | .score h a => h - a
  | .tag _ => 0

/-- An outcome dict as used by the validators: 'outcome_type' is either an
OutcomeType enum member or a raw string, 'spread' and 'total' are optional
numbers (None ↦ none). -/
structure Outcome where
  outcome_type : OutcomeType ⊕ String
  spread : Option ℚ
  total : Option ℚ
deriving DecidableEq

/-- ArbitrageValidator.matches_home_win. -/
def matches_home_win : Scenario → Except Unit Bool
  | .tag s => .ok (s == "A_WINS")
  | .score h a => .ok (decide (h - a > 0))

/-- ArbitrageValidator.matches_away_win. -/
def matches_away_win : Scenario → Except Unit Bool
  | .tag s => .ok (s == "B_WINS")
  | .score h a => .ok (decide (h - a < 0))

/-- ArbitrageValidator.matches_draw. -/
def matches_draw : Scenario → Except Unit Bool
  | .tag s => .ok (s == "DRAW")
  | .score h a => .ok (decide (h - a = 0))

/-- ArbitrageValidator.matches_home_spread.  A string scenario raises
ValueError (spread betting unsupported there); a missing spread value (None)
raises TypeError at `abs(spread)`. -/
def matches_home_spread (scenario : Scenario) (spread : Option ℚ) : Except Unit Bool :=
  match scenario with
  | .tag _ => .error ()
  | .score h a =>
    match spread with
    | none => .error ()
    | some sp =>
      let threshold : ℚ := |sp|
      if sp < 0 then .ok (decide ((h - a : ℚ) > threshold))
      else .ok (decide ((h - a : ℚ) > -threshold))

/-- ArbitrageValidator.matches_away_spread: delegates to matches_home_spread
with the negated spread ("the opposite of home spread" per the source). -/
def matches_away_spread (scenario : Scenario) (spread : Option ℚ) : Except Unit Bool :=
  matches_home_spread scenario (spread.map (fun sp => -sp))

/-- ArbitrageValidator.matches_over. -/
def matches_over (scenario : Scenario) (total : Option ℚ) : Except Unit Bool :=
  match scenario with
  | .tag _ => .error ()
  | .score h a =>
    match total with
    | none => .error ()
    | some t => .ok (decide ((h + a : ℚ) > t))

/-- ArbitrageValidator.matches_under. -/
def matches_under (scenario : Scenario) (total : Option ℚ) : Except Unit Bool :=
  match scenario with
  | .tag _ => .error ()
  | .score h a =>
    match total with
    | none => .error ()
    | some t => .ok (decide ((h + a : ℚ) < t))

/-- ArbitrageValidator.evaluate_outcome_in_scenario. -/
def evaluate_outcome_in_scenario (outcome : Outcome) (scenario : Scenario) :
    Except Unit Bool :=
  match scenario with
  | .tag s =>
    match outcome.outcome_type with
    | .inr ostr =>
      let u := strUpper ostr
      if u == "HOME" || u == "A_WINS" || strIn "HOME" u then .ok (s == "A_WINS")
      else if u == "AWAY" || u == "B_WINS" || strIn "AWAY" u then .ok (s == "B_WINS")
      else if u == "DRAW" then .ok (s == "DRAW")
      else .ok false
    | .inl t =>
      if t = OutcomeType.HOME_WIN then .ok (s == "A_WINS")
      else if t = OutcomeType.AWAY_WIN then .ok (s == "B_WINS")
      else if t = OutcomeType.DRAW then .ok (s == "DRAW")
      else .ok false
  | .score h a =>
    match outcome.outcome_type with
    | .inl t =>
      match t with
      | .HOME_WIN => matches_home_win (.score h a)
      | .AWAY_WIN => matches_away_win (.score h a)
      | .DRAW => matches_draw (.score h a)
      | .HOME_SPREAD_COVER => matches_home_spread (.score h a) outcome.spread
      | .AWAY_SPREAD_COVER => matches_away_spread (.score h a) outcome.spread
      | .OVER => matches_over (.score h a) outcome.total
      | .UNDER => matches_under (.score h a) outcome.total
    | .inr ostr =>
      let u := strUpper ostr
      if u == "HOME" || u == "HOME_WIN" then matches_home_win (.score h a)
      else if u == "AWAY" || u == "AWAY_WIN" then matches_away_win (.score h a)
      else if u == "DRAW" then matches_draw (.score h a)
      else .ok false

/-- ArbitrageValidator.NHL_SCENARIOS. -/
def NHL_SCENARIOS : List (ℤ × ℤ) :=
  [(0, 0), (1, 0), (0, 1), (1, 1), (2, 0), (0, 2),
   (2, 1), (1, 2), (2, 2), (3, 0), (0, 3), (3, 1),
   (1, 3), (3, 2), (2, 3), (4, 0), (0, 4), (4, 1),
   (1, 4), (4, 2), (2, 4), (3, 3), (4, 3), (3, 4),
   (5, 0), (0, 5), (5, 1), (1, 5), (5, 2), (2, 5),
   (5, 3), (3, 5), (5, 4), (4, 5), (5, 5), (6, 0),
   (0, 6), (6, 1), (1, 6), (6, 2), (2, 6), (6, 3),
   (3, 6), (6, 4), (4, 6), (6, 5), (5, 6)]

/-- ArbitrageValidator.SOCCER_SCENARIOS. -/
def SOCCER_SCENARIOS : List (ℤ × ℤ) :=
  [(0, 0), (1, 0), (0, 1), (1, 1), (2, 0), (0, 2),
   (2, 1), (1, 2), (2, 2), (3, 0), (0, 3), (3, 1),
   (1, 3), (3, 2), (2, 3), (3, 3), (4, 0), (0, 4),
   (4, 1), (1, 4), (4, 2), (2, 4), (4, 3), (3, 4),
   (5, 0), (0, 5), (5, 1), (1, 5), (5, 2), (2, 5)]

/-- ArbitrageValidator.BASKETBALL_SCENARIOS. -/
def BASKETBALL_SCENARIOS : List (ℤ × ℤ) :=
  [(80, 75), (85, 80), (90, 88), (95, 92), (100, 98),
   (105, 100), (110, 105), (115, 110), (120, 115),
   (75, 80), (80, 85), (88, 90), (92, 95), (98, 100),
   (100, 105), (105, 110), (110, 115), (115, 120)]

/-- ArbitrageValidator.TENNIS_SCENARIOS. -/
def TENNIS_SCENARIOS : List Scenario := [.tag "A_WINS", .tag "B_WINS"]

/-- ArbitrageValidator.MMA_SCENARIOS. -/
def MMA_SCENARIOS : List Scenario := [.tag "A_WINS", .tag "B_WINS", .tag "DRAW"]

/-- ArbitrageValidator._get_scenarios_for_sport: substring dispatch on the
sport string, defaulting to the NHL score list for unknown sports. -/
def get_scenarios_for_sport (sport : String) : List Scenario :=
  if strIn "hockey" sport || strIn "nhl" sport then
    NHL_SCENARIOS.map (fun p => .score p.1 p.2)
  else if strIn "soccer" sport then
    SOCCER_SCENARIOS.map (fun p => .score p.1 p.2)
  else if strIn "basket" sport then
    BASKETBALL_SCENARIOS.map (fun p => .score p.1 p.2)
  else if strIn "tennis" sport then
    TENNIS_SCENARIOS
  else if strIn "mma" sport || strIn "boxing" sport then
    MMA_SCENARIOS
  else
    NHL_SCENARIOS.map (fun p => .score p.1 p.2)

/-- calculate_arbitrage_profit from src/utils.py: 2-way profit margin in
percent; 0 when the implied probabilities sum to at least 1. -/
def calculate_arbitrage_profit (odds_a odds_b : ℚ) : ℚ :=
  let implied_prob_sum := 1 / odds_a + 1 / odds_b
  if implied_prob_sum ≥ 1 then 0
  else (1 - implied_prob_sum) * 100

/-- calculate_stakes from src/utils.py: closed-form proportional split. -/
def calculate_stakes (odds_a odds_b total_stake : ℚ) : ℚ × ℚ :=
  let denominator := 1 / odds_a + 1 / odds_b
  (total_stake * (1 / odds_a) / denominator, total_stake * (1 / odds_b) / denominator)

/-- verify_stakes_after_rounding from src/utils.py.  Note that every branch
returns is_valid = True: when the two returns differ by more than one cent the
larger stake is rounded down to re-equalise the returns, and the result is
still reported as valid. -/
def verify_stakes_after_rounding (odds_a odds_b stake_a stake_b : ℚ) :
    ℚ × ℚ × Bool :=
  let return_a := stake_a * odds_a
  let return_b := stake_b * odds_b
  let return_diff := |return_a - return_b|
  if return_diff ≤ 1/100 then (stake_a, stake_b, true)
  else if return_a > return_b then
    (round2 (return_b / odds_a), stake_b, true)
  else
    (stake_a, round2 (return_a / odds_b), true)

/-- The rounded first stake computed inside calculate_stakes_with_validation
(round(stake_a_ideal, 2)). -/
def stakeARounded (odds_a odds_b total_stake : ℚ) : ℚ :=
  let denominator := 1 / odds_a + 1 / odds_b
  round2 (total_stake * (1 / odds_a) / denominator)

/-- The second stake computed inside calculate_stakes_with_validation: the
source first rounds stake_b_ideal, then overwrites it with
round(total_stake - stake_a_rounded, 2) so the pre-verification total is
exact. -/
def stakeBRounded (odds_a odds_b total_stake : ℚ) : ℚ :=
  round2 (total_stake - stakeARounded odds_a odds_b total_stake)

/-- calculate_stakes_with_validation from src/utils.py: proportional split,
rounded to cents, second stake adjusted to make the total exact, then passed
through verify_stakes_after_rounding; none when the verifier says invalid
(which never happens, see verify_stakes_after_rounding). -/
def calculate_stakes_with_validation (odds_a odds_b total_stake : ℚ) :
    Option (ℚ × ℚ) :=
  let stake_a_rounded := stakeARounded odds_a odds_b total_stake
  let stake_b_rounded := stakeBRounded odds_a odds_b total_stake
  let r := verify_stakes_after_rounding odds_a odds_b stake_a_rounded stake_b_rounded
  if r.2.2 then some (r.1, r.2.1) else none

/-- One pass of the refinement loop in calculate_three_way_stakes_balanced:
scale down any stake whose return exceeds the mean by more than half a cent,
renormalise the total, round (the third stake absorbing the remainder), and
stop once the rounded returns agree within one cent. -/
def threeWayBalStep (odds_a odds_draw odds_b total_stake : ℚ) :
    ℕ → ℚ × ℚ × ℚ → ℚ × ℚ × ℚ
  | 0, s => s
  | fuel + 1, (stake_a, stake_draw, stake_b) =>
    let return_a := stake_a * odds_a
    let return_draw := stake_draw * odds_draw
    let return_b := stake_b * odds_b
    let avg_return := (return_a + return_draw + return_b) / 3
    let stake_a :=
      if return_a > avg_return + 5/1000 then
        stake_a * (if return_a > 0 then avg_return / return_a else 1)
      else stake_a
    let stake_draw :=
      if return_draw > avg_return + 5/1000 then
        stake_draw * (if return_draw > 0 then avg_return / return_draw else 1)
      else stake_draw
    let stake_b :=
      if return_b > avg_return + 5/1000 then
        stake_b * (if return_b > 0 then avg_return / return_b else 1)
      else stake_b
    let current_total := stake_a + stake_draw + stake_b
    let stake_a := if current_total > 0 then stake_a * (total_stake / current_total) else stake_a
    let stake_draw := if current_total > 0 then stake_draw * (total_stake / current_total) else stake_draw
    let stake_b := if current_total > 0 then stake_b * (total_stake / current_total) else stake_b
    let stake_a := round2 stake_a
    let stake_draw := round2 stake_draw
    let stake_b := round2 (total_stake - stake_a - stake_draw)
    let return_a := stake_a * odds_a
    let return_draw := stake_draw * odds_draw
    let return_b := stake_b * odds_b
    let return_diff := max return_a (max return_draw return_b) - min return_a (min return_draw return_b)
    if return_diff < 1/100 then (stake_a, stake_draw, stake_b)
    else threeWayBalStep odds_a odds_draw odds_b total_stake fuel (stake_a, stake_draw, stake_b)

/-- calculate_three_way_stakes_balanced from src/utils.py: proportional start,
then at most max_iterations refinement passes.  The final stakes are returned
unconditionally, converged or not. -/
def calculate_three_way_stakes_balanced (odds_a odds_draw odds_b total_stake : ℚ)
    (max_iterations : ℕ) : ℚ × ℚ × ℚ :=
  let denominator := 1 / odds_a + 1 / odds_draw + 1 / odds_b
  let stake_a := total_stake * (1 / odds_a) / denominator
  let stake_draw := total_stake * (1 / odds_draw) / denominator
  let stake_b := total_stake * (1 / odds_b) / denominator
  threeWayBalStep odds_a odds_draw odds_b total_stake max_iterations
    (stake_a, stake_draw, stake_b)

/-- Is a scenario the tie/draw case? (point differential 0, or the literal
"DRAW" string scenario).  This is the draw test used by both the arbitrage
validator and the partition validator. -/
def isDrawScenario : Scenario → Bool
  | .score h a => decide (h = a)
  | .tag s => s == "DRAW"

/-- The per-scenario profit of a two-way candidate, as computed in
validate_two_way_arbitrage: the winning leg's payout minus the total stake,
or minus the total stake when no leg wins (draw or uncovered loss). -/
def twoProfit (stake_a stake_b odds_a odds_b : ℚ) (a_wins b_wins : Bool) : ℚ :=
  if a_wins then stake_a * odds_a - (stake_a + stake_b)
  else if b_wins then stake_b * odds_b - (stake_a + stake_b)
  else -(stake_a + stake_b)

/-- Extend a running (min, max) profit range (initially none, standing for
(inf, -inf)) with one more profit value. -/
def rangeAdd (r : Option (ℚ × ℚ)) (p : ℚ) : Option (ℚ × ℚ) :=
  match r with
  | none => some (p, p)
  | some (m, M) => some (min m p, max M p)

/-- The mutable parts of the results dict of validate_two_way_arbitrage that
control flow depends on. -/
structure TwoWaySt where
  lossScenarios : List Scenario
  drawScenarios : List Scenario
  profitScenarios : List Scenario
  profitRange : Option (ℚ × ℚ)
deriving DecidableEq

/-- The scenario loop of validate_two_way_arbitrage.  `.inl st` is an early
`return (False, ...)` (evaluation error, or both outcomes winning); `.inr st`
is normal loop completion. -/
def twoWayLoop (outcome_a outcome_b : Outcome) (stake_a stake_b odds_a odds_b : ℚ) :
    List Scenario → TwoWaySt → TwoWaySt ⊕ TwoWaySt
  | [], st => .inr st
  | sc :: rest, st =>
    match evaluate_outcome_in_scenario outcome_a sc,
          evaluate_outcome_in_scenario outcome_b sc with
    | .ok a_wins, .ok b_wins =>
      if a_wins && b_wins then .inl st
      else if a_wins || b_wins then
        twoWayLoop outcome_a outcome_b stake_a stake_b odds_a odds_b rest
          ⟨st.lossScenarios, st.drawScenarios,
           (if twoProfit stake_a stake_b odds_a odds_b a_wins b_wins > 1/100 then
              st.profitScenarios ++ [sc] else st.profitScenarios),
           rangeAdd st.profitRange (twoProfit stake_a stake_b odds_a odds_b a_wins b_wins)⟩
      else if isDrawScenario sc then
        twoWayLoop outcome_a outcome_b stake_a stake_b odds_a odds_b rest
          ⟨st.lossScenarios, st.drawScenarios ++ [sc], st.profitScenarios, st.profitRange⟩
      else
        twoWayLoop outcome_a outcome_b stake_a stake_b odds_a odds_b rest
          ⟨st.lossScenarios ++ [sc], st.drawScenarios, st.profitScenarios, st.profitRange⟩
    | _, _ => .inl st

/-- ArbitrageValidator.validate_two_way_arbitrage: the verdict Bool plus the
final state.  After the scenario loop the source rejects when a non-draw loss
scenario exists, when no scenario had profit > $0.01, when no winning scenario
was seen at all (profit_min still inf), or when the profit spread over winning
scenarios exceeds $0.10. -/
def validate_two_way_arbitrage (outcome_a outcome_b : Outcome)
    (stake_a stake_b odds_a odds_b : ℚ) (sport : String) : Bool × TwoWaySt :=
  let scenarios := get_scenarios_for_sport sport
  match twoWayLoop outcome_a outcome_b stake_a stake_b odds_a odds_b scenarios
      ⟨[], [], [], none⟩ with
  | .inl st => (false, st)
  | .inr st =>
    if !st.lossScenarios.isEmpty then (false, st)
    else if st.profitScenarios.isEmpty then (false, st)
    else
      match st.profitRange with
      | none => (false, st)
      | some (profit_min, profit_max) =>
        if profit_max - profit_min > 1/10 then (false, st)
        else (true, st)

/-- The per-scenario profit of a three-way candidate, as computed in
validate_three_way_arbitrage (checked in the order A, draw, B; minus the
total stake when no leg wins). -/
def threeProfit (stake_a stake_draw stake_b odds_a odds_draw odds_b : ℚ)
    (a_wins draw_wins b_wins : Bool) : ℚ :=
  let total := stake_a + stake_draw + stake_b
  if a_wins then stake_a * odds_a - total
  else if draw_wins then stake_draw * odds_draw - total
  else if b_wins then stake_b * odds_b - total
  else -total

/-- The mutable parts of the results dict of validate_three_way_arbitrage
that control flow depends on. -/
structure ThreeWaySt where
  lossScenarios : List Scenario
  profitRange : Option (ℚ × ℚ)
deriving DecidableEq

/-- The number of winning legs in a scenario:
sum([a_wins, draw_wins, b_wins]). -/
def winCount (a_wins draw_wins b_wins : Bool) : ℕ :=
  (if a_wins then 1 else 0) + (if draw_wins then 1 else 0) + (if b_wins then 1 else 0)

/-- The scenario loop of validate_three_way_arbitrage.  `.inl st` is an early
`return (False, ...)` (evaluation error, or more than one winning outcome);
`.inr st` is normal completion.  Unlike the two-way loop, the profit range is
updated on every scenario, including zero-winner loss scenarios. -/
def threeWayLoop (outcome_a outcome_draw outcome_b : Outcome)
    (stake_a stake_draw stake_b odds_a odds_draw odds_b : ℚ) :
    List Scenario → ThreeWaySt → ThreeWaySt ⊕ ThreeWaySt
  | [], st => .inr st
  | sc :: rest, st =>
    match evaluate_outcome_in_scenario outcome_a sc,
          evaluate_outcome_in_scenario outcome_draw sc,
          evaluate_outcome_in_scenario outcome_b sc with
    | .ok a_wins, .ok draw_wins, .ok b_wins =>
      if winCount a_wins draw_wins b_wins > 1 then .inl st
      else if winCount a_wins draw_wins b_wins = 0 then
        threeWayLoop outcome_a outcome_draw outcome_b stake_a stake_draw stake_b
          odds_a odds_draw odds_b rest
          ⟨st.lossScenarios ++ [sc],
           rangeAdd st.profitRange (threeProfit stake_a stake_draw stake_b
             odds_a odds_draw odds_b a_wins draw_wins b_wins)⟩
      else
        threeWayLoop outcome_a outcome_draw outcome_b stake_a stake_draw stake_b
          odds_a odds_draw odds_b rest
          ⟨st.lossScenarios,
           rangeAdd st.profitRange (threeProfit stake_a stake_draw stake_b
             odds_a odds_draw odds_b a_wins draw_wins b_wins)⟩
    | _, _, _ => .inl st

/-- ArbitrageValidator.validate_three_way_arbitrage: verdict Bool plus final
state.  After the loop the source rejects when a zero-winner scenario exists
or when the profit spread over all scenarios exceeds $0.05; there is no
check that the guaranteed profit is non-negative.  (The `none` range case
corresponds to an empty scenario list, where the Python comparison
-inf > 0.05 is False and the candidate is accepted; it is unreachable since
every sport's scenario list is non-empty.) -/
def validate_three_way_arbitrage (outcome_a outcome_draw outcome_b : Outcome)
    (stake_a stake_draw stake_b odds_a odds_draw odds_b : ℚ) (sport : String) :
    Bool × ThreeWaySt :=
  let scenarios := get_scenarios_for_sport sport
  match threeWayLoop outcome_a outcome_draw outcome_b stake_a stake_draw stake_b
      odds_a odds_draw odds_b scenarios ⟨[], none⟩ with
  | .inl st => (false, st)
  | .inr st =>
    if !st.lossScenarios.isEmpty then (false, st)
    else
      match st.profitRange with
      | none => (true, st)
      | some (profit_min, profit_max) =>
        if profit_max - profit_min > 1/20 then (false, st)
        else (true, st)

/-- The is_moneyline test of OutcomePartition.validate_two_way_partition:
for enum outcomes the test is order-sensitive (outcome_a must be HOME_WIN and
outcome_b AWAY_WIN); for string outcomes both orders are accepted. -/
def is_moneyline (outcome_a outcome_b : Outcome) : Bool :=
  match outcome_a.outcome_type, outcome_b.outcome_type with
  | .inl ta, .inl tb =>
    ta = OutcomeType.HOME_WIN && tb = OutcomeType.AWAY_WIN
  | .inr sa, .inr sb =>
    let ua := strUpper sa
    let ub := strUpper sb
    ((ua == "HOME" || ua == "A_WINS") && (ub == "AWAY" || ub == "B_WINS")) ||
    ((ua == "AWAY" || ua == "B_WINS") && (ub == "HOME" || ub == "A_WINS"))
  | _, _ => false

/-- The scenario loop of OutcomePartition.validate_two_way_partition:
covered count, uncovered scenarios, both-win scenarios.  Evaluation errors
propagate (there is no try/except in the partition validator). -/
def partitionLoop (outcome_a outcome_b : Outcome) :
    List Scenario → ℕ × List Scenario × List Scenario →
    Except Unit (ℕ × List Scenario × List Scenario)
  | [], st => .ok st
  | sc :: rest, (covered, uncovered, bothWin) =>
    match evaluate_outcome_in_scenario outcome_a sc,
          evaluate_outcome_in_scenario outcome_b sc with
    | .ok a_wins, .ok b_wins =>
      if a_wins && b_wins then
        partitionLoop outcome_a outcome_b rest (covered, uncovered, bothWin ++ [sc])
      else if a_wins || b_wins then
        partitionLoop outcome_a outcome_b rest (covered + 1, uncovered, bothWin)
      else
        partitionLoop outcome_a outcome_b rest (covered, uncovered ++ [sc], bothWin)
    | _, _ => .error ()

/-- The post-loop verdict of validate_two_way_partition, as a function of the
scenario list (the source computes the list from the sport first). -/
def partition_check (outcome_a outcome_b : Outcome) (scenarios : List Scenario) :
    Except Unit Bool :=
  match partitionLoop outcome_a outcome_b scenarios (0, [], []) with
  | .error _ => .error ()
  | .ok (_, uncovered, bothWin) =>
    if !bothWin.isEmpty then .ok false
    else if is_moneyline outcome_a outcome_b then
      let other_uncovered := uncovered.filter (fun s => !isDrawScenario s)
      if !other_uncovered.isEmpty then .ok false
      else .ok true
    else if !uncovered.isEmpty then .ok false
    else .ok true

/-- OutcomePartition.validate_two_way_partition: the partition verdict, with
evaluation exceptions propagated as errors. -/
def validate_two_way_partition (outcome_a outcome_b : Outcome) (sport : String) :
    Except Unit Bool :=
  partition_check outcome_a outcome_b (get_scenarios_for_sport sport)

set_option maxRecDepth 1000000

/-- The outcome dict for a plain home moneyline bet. -/
def homeWinOutcome : Outcome := ⟨.inl .HOME_WIN, none, none⟩

/-- The outcome dict for a plain away moneyline bet. -/
def awayWinOutcome : Outcome := ⟨.inl .AWAY_WIN, none, none⟩

/-- The outcome dict for a draw bet. -/
def drawOutcome : Outcome := ⟨.inl .DRAW, none, none⟩

/-- The spread (max minus min) of the three payouts of a stake triple. -/
def threeWayReturnSpread (odds_a odds_draw odds_b : ℚ) (s : ℚ × ℚ × ℚ) : ℚ :=
  let return_a := s.1 * odds_a
  let return_draw := s.2.1 * odds_draw
  let return_b := s.2.2 * odds_b
  max return_a (max return_draw return_b) - min return_a (min return_draw return_b)

/-- C2: the AWAY_SPREAD_COVER predicate is inverted.  Under the documented
sign convention, away at line +1.5 covers exactly when the away side loses by
less than 1.5 (differential < 1.5), and away at line -1.5 covers exactly when
away wins by at least 2 (differential < -1.5); a push on the line does not
cover.  The code delegates to matches_home_spread with the negated line,
which evaluates differential > line: so at home 3 - away 0 with away line
+1.5 it returns True although away lost by 3, at home 1 - away 0 with away
line +1.5 it returns False although away lost by less than the line, and at
home 0 - away 2 with away line -1.5 it returns False although away won by 2
and covers. -/
theorem C2_away_spread_inverted :
    matches_away_spread (.score 3 0) (some (3/2)) = .ok true ∧
    matches_away_spread (.score 1 0) (some (3/2)) = .ok false ∧
    matches_away_spread (.score 0 2) (some (-(3/2))) = .ok false := by
  decide

/-- C7: the two-way profit-margin computation returns exactly 0 whenever the
implied probabilities sum to at least 1 (in particular for odds 1.90 / 2.10),
and returns the positive margin (1 - sum) * 100 whenever the sum is below
1. -/
theorem C7_profit_margin :
    (∀ odds_a odds_b : ℚ, 1 < odds_a → 1 < odds_b →
      1 / odds_a + 1 / odds_b ≥ 1 → calculate_arbitrage_profit odds_a odds_b = 0) ∧
    calculate_arbitrage_profit (19/10) (21/10) = 0 ∧
    (∀ odds_a odds_b : ℚ, 1 < odds_a → 1 < odds_b →
      1 / odds_a + 1 / odds_b < 1 →
      calculate_arbitrage_profit odds_a odds_b = (1 - (1 / odds_a + 1 / odds_b)) * 100) := by
  refine ⟨?_, by decide, ?_⟩
  · intro odds_a odds_b _ _ h
    simp only [calculate_arbitrage_profit]
    rw [if_pos h]
  · intro odds_a odds_b _ _ h
    simp only [calculate_arbitrage_profit]
    rw [if_neg (not_le.mpr h)]

/-- C7 witness: the profit-margin facts instantiated at odds 1.90 / 2.10
(sum of implied probabilities above 1, margin exactly 0) and at odds 3 / 3
(arbitrage exists, margin (1 - 2/3) * 100). -/
theorem C7_witness :
    ((1:ℚ) < 19/10 ∧ (1:ℚ) < 21/10 ∧ 1 / ((19:ℚ)/10) + 1 / ((21:ℚ)/10) ≥ 1 ∧
      calculate_arbitrage_profit (19/10) (21/10) = 0) ∧
    (1 / (3:ℚ) + 1 / (3:ℚ) < 1 ∧
      calculate_arbitrage_profit 3 3 = (1 - (1/3 + 1/3)) * 100) := by
  refine ⟨⟨by decide, by decide, by decide,
    C7_profit_margin.1 (19/10) (21/10) (by decide) (by decide) (by decide)⟩,
    ⟨by decide, C7_profit_margin.2.2 3 3 (by decide) (by decide) (by decide)⟩⟩

/-- C10: scenario selection is a total function of the sport string, matching
the substrings 'hockey'/'nhl', 'soccer', 'basket', 'tennis', 'mma'/'boxing';
a sport string containing none of them silently falls back to the NHL score
scenarios. -/
theorem C10_default_scenarios :
    ∀ sport : String,
    strIn "hockey" sport = false → strIn "nhl" sport = false →
    strIn "soccer" sport = false → strIn "basket" sport = false →
    strIn "tennis" sport = false → strIn "mma" sport = false →
    strIn "boxing" sport = false →
    get_scenarios_for_sport sport = NHL_SCENARIOS.map (fun p => .score p.1 p.2) := by
  intro sport h1 h2 h3 h4 h5 h6 h7
  simp [get_scenarios_for_sport, h1, h2, h3, h4, h5, h6, h7]

/-- C10 witness: the unknown sport string "cricket" is validated against the
NHL score scenarios. -/
theorem C10_witness :
    get_scenarios_for_sport "cricket" = NHL_SCENARIOS.map (fun p => .score p.1 p.2) :=
  C10_default_scenarios "cricket" (by decide) (by decide) (by decide) (by decide)
    (by decide) (by decide) (by decide)

/-- C9: a misclassified leg silently never wins.  Spread and total outcomes
evaluated against a binary string scenario (tennis/MMA) return False rather
than raising, and a string-typed outcome label that matches none of the
recognised tags (no HOME/A_WINS match, no AWAY/B_WINS match, not DRAW)
returns False in every scenario, string or score. -/
theorem C9_unrecognized_outcome_never_wins :
    (∀ (sp tot : Option ℚ) (s : String),
      evaluate_outcome_in_scenario ⟨.inl .HOME_SPREAD_COVER, sp, tot⟩ (.tag s) = .ok false ∧
      evaluate_outcome_in_scenario ⟨.inl .AWAY_SPREAD_COVER, sp, tot⟩ (.tag s) = .ok false ∧
      evaluate_outcome_in_scenario ⟨.inl .OVER, sp, tot⟩ (.tag s) = .ok false ∧
      evaluate_outcome_in_scenario ⟨.inl .UNDER, sp, tot⟩ (.tag s) = .ok false) ∧
    (∀ (os : String) (sp tot : Option ℚ) (sc : Scenario),
      (strUpper os == "HOME" || strUpper os == "A_WINS" || strIn "HOME" (strUpper os)) = false →
      (strUpper os == "AWAY" || strUpper os == "B_WINS" || strIn "AWAY" (strUpper os)) = false →
      (strUpper os == "DRAW") = false →
      evaluate_outcome_in_scenario ⟨.inr os, sp, tot⟩ sc = .ok false) := by
  constructor
  · intro sp tot s
    exact ⟨rfl, rfl, rfl, rfl⟩
  · intro os sp tot sc h1 h2 h3
    simp only [Bool.or_eq_false_iff] at h1 h2
    obtain ⟨h1a, h1b⟩ := h1
    obtain ⟨h1a1, h1a2⟩ := h1a
    obtain ⟨h2a, h2b⟩ := h2
    obtain ⟨h2a1, h2a2⟩ := h2a
    have hhw : (strUpper os == "HOME_WIN") = false := by
      cases hh : strUpper os == "HOME_WIN" with
      | false => rfl
      | true =>
        have := eq_of_beq hh
        rw [this] at h1b
        exact absurd h1b (by decide)
    have haw : (strUpper os == "AWAY_WIN") = false := by
      cases hh : strUpper os == "AWAY_WIN" with
      | false => rfl
      | true =>
        have := eq_of_beq hh
        rw [this] at h2b
        exact absurd h2b (by decide)
    cases sc with
    | tag s =>
      simp only [evaluate_outcome_in_scenario]
      simp [h1a1, h1a2, h1b, h2a1, h2a2, h2b, h3]
    | score h a =>
      simp only [evaluate_outcome_in_scenario]
      simp [h1a1, h2a1, h3, hhw, haw]

/-- C9 witness: an OVER leg against a tennis-style string scenario, and a leg
with the unrecognised label "MYSTERY" against a score scenario, both evaluate
to a non-winning False rather than an error. -/
theorem C9_witness :
    evaluate_outcome_in_scenario ⟨.inl .OVER, none, some 5⟩ (.tag "A_WINS") = .ok false ∧
    evaluate_outcome_in_scenario ⟨.inr "MYSTERY", none, none⟩ (.score 1 0) = .ok false :=
  ⟨(C9_unrecognized_outcome_never_wins.1 none (some 5) "A_WINS").2.2.1,
   C9_unrecognized_outcome_never_wins.2 "MYSTERY" none none (.score 1 0)
     (by decide) (by decide) (by decide)⟩

/-- C8 counterexample: a label exactly equal to the home team name is NOT
classified as the home side when normalization rewrites the team name.  Home
team "Manchester United" normalizes to "manchester utd", which is not a
substring of the merely lowercased label "manchester united", so the
classifier falls through to OTHER although the claim requires HOME. -/
theorem C8_counterexample_exact_name_unclassified :
    identify_outcome_type "Manchester United" "Manchester United" "Chelsea" = "OTHER" := by
  decide

/-- C8 amended: the classifier lowercases the raw label but applies suffix
normalization only to the team names.  A label (with no draw/tie token) that
contains the normalized home team name as a substring is classified HOME, and
one that fails the home checks and contains the normalized away team name is
classified AWAY; exact equality with the original team name is neither
necessary nor sufficient. -/
theorem C8_amended_classifier :
    (∀ name home away : String, name ≠ "" →
      strIn "draw" (strLower name) = false →
      strIn "tie" (strLower name) = false →
      normalize_team_name home ≠ "" →
      strIn (normalize_team_name home) (strLower name) = true →
      identify_outcome_type name home away = "HOME") ∧
    (∀ name home away : String, name ≠ "" →
      strIn "draw" (strLower name) = false →
      strIn "tie" (strLower name) = false →
      (normalize_team_name home = "" ∨
        strIn (normalize_team_name home) (strLower name) = false) →
      strIn "home" (strLower name) = false →
      normalize_team_name away ≠ "" →
      strIn (normalize_team_name away) (strLower name) = true →
      identify_outcome_type name home away = "AWAY") := by
  constructor
  · intro name home away hne hd ht hhn hsub
    simp only [identify_outcome_type]
    rw [if_neg (by simp [hne])]
    simp [hd, ht, hhn, hsub]
  · intro name home away hne hd ht hhome hlit han hsub
    simp only [identify_outcome_type]
    rw [if_neg (by simp [hne])]
    have hhc : (normalize_team_name home != "" &&
        strIn (normalize_team_name home) (strLower name)) = false := by
      rcases hhome with h | h
      · simp [h]
      · simp [h]
    simp [hd, ht, hhc, hlit, han, hsub]

/-- C8 witness: "Arsenal FC" still matches its own home team name (the FC
strip leaves a substring), and label "Chelsea" matches the away team
"Chelsea". -/
theorem C8_witness :
    identify_outcome_type "Arsenal FC" "Arsenal FC" "Chelsea" = "HOME" ∧
    identify_outcome_type "Chelsea" "Arsenal" "Chelsea" = "AWAY" :=
  ⟨C8_amended_classifier.1 "Arsenal FC" "Arsenal FC" "Chelsea" (by decide) (by decide)
     (by decide) (by decide) (by decide),
   C8_amended_classifier.2 "Chelsea" "Arsenal" "Chelsea" (by decide) (by decide)
     (by decide) (Or.inr (by decide)) (by decide) (by decide) (by decide)⟩

/-- C3 counterexample: with odds 10/10/10 the cent granularity makes the
three payouts differ by $0.10 (stakes 33.33/33.33/33.34 pay 333.30/333.30/
333.40), the refinement loop cannot converge below one cent, and after its 10
bounded iterations calculate_three_way_stakes_balanced still RETURNS this
best-effort unequal-payout allocation; its return type carries no
failure signal at all. -/
theorem C3_counterexample_best_effort_returned :
    calculate_three_way_stakes_balanced 10 10 10 100 10 = (3333/100, 3333/100, 1667/50) ∧
    threeWayReturnSpread 10 10 10 (calculate_three_way_stakes_balanced 10 10 10 100 10)
      ≥ 1/100 := by
  decide

/-- C3 amended: the stake balancers never signal failure.  The two-way
post-rounding verifier verify_stakes_after_rounding reports is_valid = True
on every input (even when it had to adjust a stake), and the three-way
balancer returns its final stakes unconditionally after the bounded
refinement; non-convergence is never turned into a rejection by the balancer
itself. -/
theorem C3_amended_no_failure_signal :
    ∀ odds_a odds_b stake_a stake_b : ℚ,
      (verify_stakes_after_rounding odds_a odds_b stake_a stake_b).2.2 = true := by
  intro odds_a odds_b stake_a stake_b
  simp only [verify_stakes_after_rounding]
  split_ifs <;> rfl

/-- Rounding an integer-valued rational is the identity. -/
theorem rhe_intCast (n : ℤ) : rhe (n : ℚ) = n := by
  simp only [rhe, Int.floor_intCast, sub_self]
  rw [if_pos (by norm_num)]

/-- Rounding a whole number of cents to cents is the identity. -/
theorem round2_cents (n : ℤ) : round2 ((n : ℚ) / 100) = (n : ℚ) / 100 := by
  simp only [round2]
  rw [div_mul_cancel₀ _ (by norm_num : (100:ℚ) ≠ 0), rhe_intCast]

/-- round2 always produces a whole number of cents. -/
theorem round2_exists_cents (q : ℚ) : ∃ m : ℤ, round2 q = (m : ℚ) / 100 :=
  ⟨rhe (q * 100), rfl⟩

/-- C4 counterexample: at odds 50 and 1.10 with total stake $100 the
post-rounding adjustment branch of verify_stakes_after_rounding fires
(returns 107.50 vs 107.635 differ by more than a cent) and rounds the second
stake from 97.85 down to 97.73, so calculate_stakes_with_validation returns
stakes summing to $99.88 - off the requested total by $0.12 > $0.01. -/
theorem C4_counterexample_sum_broken :
    calculate_stakes_with_validation 50 (11/10) 100 = some (43/20, 9773/100) ∧
    ¬(|43/20 + 9773/100 - (100:ℚ)| ≤ 1/100) := by
  decide

/-- C4 amended: for any odds and a total stake that is a whole number of
cents, WHEN the two post-rounding payouts already agree within one cent (the
adjustment branch of verify_stakes_after_rounding does not fire), the
returned stakes are the rounded pair and their sum equals the total stake
exactly; when the adjustment branch fires, the sum can move away from the
total by more than $0.01 (see the counterexample). -/
theorem C4_amended_sum_exact_when_unadjusted :
    ∀ (odds_a odds_b : ℚ) (k : ℤ), 1 < odds_a → 1 < odds_b →
      |stakeARounded odds_a odds_b ((k : ℚ)/100) * odds_a -
        stakeBRounded odds_a odds_b ((k : ℚ)/100) * odds_b| ≤ 1/100 →
      calculate_stakes_with_validation odds_a odds_b ((k : ℚ)/100) =
        some (stakeARounded odds_a odds_b ((k : ℚ)/100),
              stakeBRounded odds_a odds_b ((k : ℚ)/100)) ∧
      stakeARounded odds_a odds_b ((k : ℚ)/100) +
        stakeBRounded odds_a odds_b ((k : ℚ)/100) = (k : ℚ)/100 := by
  intro odds_a odds_b k _ _ hdiff
  have hv : verify_stakes_after_rounding odds_a odds_b
      (stakeARounded odds_a odds_b ((k : ℚ)/100))
      (stakeBRounded odds_a odds_b ((k : ℚ)/100)) =
      (stakeARounded odds_a odds_b ((k : ℚ)/100),
       stakeBRounded odds_a odds_b ((k : ℚ)/100), true) := by
    simp only [verify_stakes_after_rounding]
    rw [if_pos hdiff]
  constructor
  · simp only [calculate_stakes_with_validation, hv]
    simp
  · obtain ⟨a, ha⟩ := round2_exists_cents
      ((k : ℚ)/100 * (1 / odds_a) / (1 / odds_a + 1 / odds_b))
    have ha' : stakeARounded odds_a odds_b ((k : ℚ)/100) = (a : ℚ)/100 := by
      rw [stakeARounded]
      exact ha
    rw [stakeBRounded, ha']
    have hb : (k : ℚ)/100 - (a : ℚ)/100 = ((k - a : ℤ) : ℚ)/100 := by
      push_cast
      ring
    rw [hb, round2_cents]
    push_cast
    ring

/-- C4 witness: at odds 2 / 2 and total stake $100.00 (10000 cents) the
rounded stakes are 50/50, the payouts agree exactly, and the returned stakes
sum to the total. -/
theorem C4_witness :
    calculate_stakes_with_validation 2 2 (((10000 : ℤ) : ℚ)/100) =
      some (stakeARounded 2 2 (((10000 : ℤ) : ℚ)/100),
            stakeBRounded 2 2 (((10000 : ℤ) : ℚ)/100)) ∧
    stakeARounded 2 2 (((10000 : ℤ) : ℚ)/100) +
      stakeBRounded 2 2 (((10000 : ℤ) : ℚ)/100) = ((10000 : ℤ) : ℚ)/100 :=
  C4_amended_sum_exact_when_unadjusted 2 2 10000 (by decide) (by decide) (by decide)

/-- r' extends r: its min is no larger and its max no smaller. -/
def rangeExt (r r' : Option (ℚ × ℚ)) : Prop :=
  ∀ m M : ℚ, r = some (m, M) → ∃ m' M' : ℚ, r' = some (m', M') ∧ m' ≤ m ∧ M ≤ M'

theorem rangeExt_refl (r : Option (ℚ × ℚ)) : rangeExt r r :=
  fun m M h => ⟨m, M, h, le_refl _, le_refl _⟩

theorem rangeExt_trans {r1 r2 r3 : Option (ℚ × ℚ)}
    (h12 : rangeExt r1 r2) (h23 : rangeExt r2 r3) : rangeExt r1 r3 := by
  intro m M h
  obtain ⟨m2, M2, h2, hm2, hM2⟩ := h12 m M h
  obtain ⟨m3, M3, h3, hm3, hM3⟩ := h23 m2 M2 h2
  exact ⟨m3, M3, h3, le_trans hm3 hm2, le_trans hM2 hM3⟩

theorem rangeExt_rangeAdd (r : Option (ℚ × ℚ)) (p : ℚ) : rangeExt r (rangeAdd r p) := by
  intro m M h
  rw [h]
  exact ⟨min m p, max M p, rfl, min_le_left _ _, le_max_left _ _⟩

theorem rangeAdd_bounds (r : Option (ℚ × ℚ)) (p : ℚ) :
    ∃ m M, rangeAdd r p = some (m, M) ∧ m ≤ p ∧ p ≤ M := by
  cases r with
  | none => exact ⟨p, p, rfl, le_refl _, le_refl _⟩
  | some x =>
    obtain ⟨m, M⟩ := x
    exact ⟨min m p, max M p, rfl, min_le_right _ _, le_max_right _ _⟩

/-- The profit-witness invariant carried through the two-way scenario loop:
whenever the profit_scenarios list is non-empty, the running profit range is
set and its max exceeds one cent. -/
def twoInv (st : TwoWaySt) : Prop :=
  st.profitScenarios ≠ [] → ∃ m M, st.profitRange = some (m, M) ∧ 1/100 < M

/-- Combined specification of the two-way scenario loop on normal completion:
the profit range only widens; the profit-witness invariant is preserved; and
every scenario of the list whose two legs evaluate without error has at most
one winning leg, with its profit inside the final range whenever some leg
wins. -/
theorem twoWayLoop_inr_spec (a b : Outcome) (sa sb oa ob : ℚ) :
    ∀ (l : List Scenario) (st st' : TwoWaySt),
    twoWayLoop a b sa sb oa ob l st = .inr st' →
    rangeExt st.profitRange st'.profitRange ∧
    (twoInv st → twoInv st') ∧
    ∀ sc ∈ l, ∀ wa wb : Bool,
      evaluate_outcome_in_scenario a sc = .ok wa →
      evaluate_outcome_in_scenario b sc = .ok wb →
      ¬(wa = true ∧ wb = true) ∧
      ((wa = true ∨ wb = true) →
        ∃ m M, st'.profitRange = some (m, M) ∧
          m ≤ twoProfit sa sb oa ob wa wb ∧ twoProfit sa sb oa ob wa wb ≤ M) := by
  intro l
  induction l with
  | nil =>
    intro st st' hl
    simp only [twoWayLoop] at hl
    obtain rfl : st = st' := Sum.inr.inj hl
    exact ⟨rangeExt_refl _, fun h => h, by simp⟩
  | cons sc0 rest ih =>
    intro st st' hl
    rw [twoWayLoop] at hl
    split at hl
    case h_2 => exact absurd hl (fun h => Sum.noConfusion h)
    case h_1 wa0 wb0 hea heb =>
      by_cases hboth : (wa0 && wb0) = true
      · rw [if_pos hboth] at hl
        exact absurd hl (fun h => Sum.noConfusion h)
      · rw [if_neg hboth] at hl
        have hboth' : ¬(wa0 = true ∧ wb0 = true) := by
          simpa [Bool.and_eq_true] using hboth
        by_cases hwin : (wa0 || wb0) = true
        · rw [if_pos hwin] at hl
          obtain ⟨IH1, IH2, IH3⟩ := ih _ _ hl
          dsimp only at IH1
          have hstep : rangeExt st.profitRange
              (rangeAdd st.profitRange (twoProfit sa sb oa ob wa0 wb0)) :=
            rangeExt_rangeAdd _ _
          refine ⟨rangeExt_trans hstep IH1, ?_, ?_⟩
          · intro hinv
            apply IH2
            intro hne
            dsimp only at hne ⊢
            by_cases hp : twoProfit sa sb oa ob wa0 wb0 > 1/100
            · obtain ⟨m, M, hr, _, hpM⟩ := rangeAdd_bounds st.profitRange
                (twoProfit sa sb oa ob wa0 wb0)
              exact ⟨m, M, hr, lt_of_lt_of_le hp hpM⟩
            · rw [if_neg hp] at hne
              obtain ⟨m0, M0, hr0, hM0⟩ := hinv hne
              obtain ⟨m1, M1, hr1, _, hM1⟩ := rangeExt_rangeAdd st.profitRange
                (twoProfit sa sb oa ob wa0 wb0) m0 M0 hr0
              exact ⟨m1, M1, hr1, lt_of_lt_of_le hM0 hM1⟩
          · intro sc hsc wa wb hwa hwb
            rcases List.mem_cons.mp hsc with rfl | hsc'
            · rw [hea] at hwa
              obtain rfl : wa = wa0 := (Except.ok.inj hwa).symm
              rw [heb] at hwb
              obtain rfl : wb = wb0 := (Except.ok.inj hwb).symm
              refine ⟨hboth', fun _ => ?_⟩
              obtain ⟨m, M, hr, hmp, hpM⟩ := rangeAdd_bounds st.profitRange
                (twoProfit sa sb oa ob wa wb)
              obtain ⟨m', M', hr', hm', hM'⟩ := IH1 m M hr
              exact ⟨m', M', hr', le_trans hm' hmp, le_trans hpM hM'⟩
            · exact IH3 sc hsc' wa wb hwa hwb
        · rw [if_neg hwin] at hl
          have hwa0 : wa0 = false := by
            cases wa0
            · rfl
            · exact absurd (by simp) hwin
          have hwb0 : wb0 = false := by
            cases wb0
            · rfl
            · exact absurd (by simp [hwa0]) hwin
          subst hwa0
          subst hwb0
          have hrest : ∃ st1 : TwoWaySt,
              twoWayLoop a b sa sb oa ob rest st1 = .inr st' ∧
              st1.profitRange = st.profitRange ∧
              st1.profitScenarios = st.profitScenarios := by
            by_cases hds : isDrawScenario sc0 = true
            · rw [if_pos hds] at hl
              exact ⟨_, hl, rfl, rfl⟩
            · rw [if_neg hds] at hl
              exact ⟨_, hl, rfl, rfl⟩
          obtain ⟨st1, hl1, hrange1, hprof1⟩ := hrest
          obtain ⟨IH1, IH2, IH3⟩ := ih _ _ hl1
          rw [hrange1] at IH1
          refine ⟨IH1, ?_, ?_⟩
          · intro hinv
            apply IH2
            intro hne
            rw [hprof1] at hne
            rw [hrange1]
            exact hinv hne
          · intro sc hsc wa wb hwa hwb
            rcases List.mem_cons.mp hsc with rfl | hsc'
            · rw [hea] at hwa
              obtain rfl : wa = false := (Except.ok.inj hwa).symm
              rw [heb] at hwb
              obtain rfl : wb = false := (Except.ok.inj hwb).symm
              exact ⟨by simp, by simp⟩
            · exact IH3 sc hsc' wa wb hwa hwb

/-- Specification of the three-way scenario loop on normal completion: the
profit range only widens, and every scenario of the list whose three legs
evaluate without error has at most one winning leg and its profit (computed
for every scenario, including zero-winner ones) inside the final range. -/
theorem threeWayLoop_inr_spec (a d b : Outcome) (sa sd sb oa od ob : ℚ) :
    ∀ (l : List Scenario) (st st' : ThreeWaySt),
    threeWayLoop a d b sa sd sb oa od ob l st = .inr st' →
    rangeExt st.profitRange st'.profitRange ∧
    ∀ sc ∈ l, ∀ wa wd wb : Bool,
      evaluate_outcome_in_scenario a sc = .ok wa →
      evaluate_outcome_in_scenario d sc = .ok wd →
      evaluate_outcome_in_scenario b sc = .ok wb →
      winCount wa wd wb ≤ 1 ∧
      ∃ m M, st'.profitRange = some (m, M) ∧
        m ≤ threeProfit sa sd sb oa od ob wa wd wb ∧
        threeProfit sa sd sb oa od ob wa wd wb ≤ M := by
  intro l
  induction l with
  | nil =>
    intro st st' hl
    simp only [threeWayLoop] at hl
    obtain rfl : st = st' := Sum.inr.inj hl
    exact ⟨rangeExt_refl _, by simp⟩
  | cons sc0 rest ih =>
    intro st st' hl
    rw [threeWayLoop] at hl
    split at hl
    case h_2 => exact absurd hl (fun h => Sum.noConfusion h)
    case h_1 wa0 wd0 wb0 hea hed heb =>
      by_cases hcnt : winCount wa0 wd0 wb0 > 1
      · rw [if_pos hcnt] at hl
        exact absurd hl (fun h => Sum.noConfusion h)
      · rw [if_neg hcnt] at hl
        have hrest : ∃ st1 : ThreeWaySt,
            threeWayLoop a d b sa sd sb oa od ob rest st1 = .inr st' ∧
            st1.profitRange = rangeAdd st.profitRange
              (threeProfit sa sd sb oa od ob wa0 wd0 wb0) := by
          by_cases h0 : winCount wa0 wd0 wb0 = 0
          · rw [if_pos h0] at hl
            exact ⟨_, hl, rfl⟩
          · rw [if_neg h0] at hl
            exact ⟨_, hl, rfl⟩
        obtain ⟨st1, hl1, hr1⟩ := hrest
        obtain ⟨IH1, IH2⟩ := ih _ _ hl1
        rw [hr1] at IH1
        refine ⟨rangeExt_trans (rangeExt_rangeAdd _ _) IH1, ?_⟩
        intro sc hsc wa wd wb hwa hwd hwb
        rcases List.mem_cons.mp hsc with rfl | hsc'
        · rw [hea] at hwa
          obtain rfl : wa = wa0 := (Except.ok.inj hwa).symm
          rw [hed] at hwd
          obtain rfl : wd = wd0 := (Except.ok.inj hwd).symm
          rw [heb] at hwb
          obtain rfl : wb = wb0 := (Except.ok.inj hwb).symm
          refine ⟨Nat.le_of_not_lt hcnt, ?_⟩
          obtain ⟨m, M, hr, hmp, hpM⟩ := rangeAdd_bounds st.profitRange
            (threeProfit sa sd sb oa od ob wa wd wb)
          obtain ⟨m', M', hr', hm', hM'⟩ := IH1 m M hr
          exact ⟨m', M', hr', le_trans hm' hmp, le_trans hpM hM'⟩
        · exact IH2 sc hsc' wa wd wb hwa hwd hwb

/-- Specification of the partition-validator scenario loop on normal
completion: previously collected uncovered scenarios are kept, and every
scenario of the list in which neither outcome wins ends up in the uncovered
list. -/
theorem partitionLoop_ok_spec (a b : Outcome) :
    ∀ (l : List Scenario) (cov : ℕ) (unc both : List Scenario)
      (st' : ℕ × List Scenario × List Scenario),
    partitionLoop a b l (cov, unc, both) = .ok st' →
    (∀ x ∈ unc, x ∈ st'.2.1) ∧
    ∀ sc ∈ l, ∀ wa wb : Bool,
      evaluate_outcome_in_scenario a sc = .ok wa →
      evaluate_outcome_in_scenario b sc = .ok wb →
      wa = false → wb = false → sc ∈ st'.2.1 := by
  intro l
  induction l with
  | nil =>
    intro cov unc both st' hl
    simp only [partitionLoop] at hl
    obtain rfl : (cov, unc, both) = st' := Except.ok.inj hl
    exact ⟨fun x hx => hx, by simp⟩
  | cons sc0 rest ih =>
    intro cov unc both st' hl
    rw [partitionLoop] at hl
    split at hl
    case h_2 => exact absurd hl (fun h => Except.noConfusion h)
    case h_1 wa0 wb0 hea heb =>
      by_cases hboth : (wa0 && wb0) = true
      · rw [if_pos hboth] at hl
        obtain ⟨IH1, IH2⟩ := ih _ _ _ _ hl
        refine ⟨IH1, ?_⟩
        intro sc hsc wa wb hwa hwb hfa hfb
        rcases List.mem_cons.mp hsc with rfl | hsc'
        · rw [hea] at hwa
          obtain rfl : wa = wa0 := (Except.ok.inj hwa).symm
          rw [hfa] at hboth
          exact absurd hboth (by simp)
        · exact IH2 sc hsc' wa wb hwa hwb hfa hfb
      · rw [if_neg hboth] at hl
        by_cases hwin : (wa0 || wb0) = true
        · rw [if_pos hwin] at hl
          obtain ⟨IH1, IH2⟩ := ih _ _ _ _ hl
          refine ⟨IH1, ?_⟩
          intro sc hsc wa wb hwa hwb hfa hfb
          rcases List.mem_cons.mp hsc with rfl | hsc'
          · rw [hea] at hwa
            obtain rfl : wa = wa0 := (Except.ok.inj hwa).symm
            rw [heb] at hwb
            obtain rfl : wb = wb0 := (Except.ok.inj hwb).symm
            rw [hfa, hfb] at hwin
            exact absurd hwin (by simp)
          · exact IH2 sc hsc' wa wb hwa hwb hfa hfb
        · rw [if_neg hwin] at hl
          obtain ⟨IH1, IH2⟩ := ih _ _ _ _ hl
          refine ⟨fun x hx => IH1 x (List.mem_append_left _ hx), ?_⟩
          intro sc hsc wa wb hwa hwb hfa hfb
          rcases List.mem_cons.mp hsc with rfl | hsc'
          · exact IH1 sc (List.mem_append_right _ (List.mem_singleton.mpr rfl))
          · exact IH2 sc hsc' wa wb hwa hwb hfa hfb

/-- What a (True, results) verdict of the two-way validator implies: the
scenario loop completed normally, there is no non-draw loss scenario, some
scenario had profit above one cent, and the profit range over winning
scenarios is set with a spread of at most $0.10. -/
theorem validate_two_way_true_spec (a b : Outcome) (sa sb oa ob : ℚ) (sport : String)
    (st : TwoWaySt)
    (heq : validate_two_way_arbitrage a b sa sb oa ob sport = (true, st)) :
    twoWayLoop a b sa sb oa ob (get_scenarios_for_sport sport) ⟨[], [], [], none⟩ = .inr st ∧
    st.lossScenarios = [] ∧
    st.profitScenarios ≠ [] ∧
    ∃ m M, st.profitRange = some (m, M) ∧ M - m ≤ 1/10 := by
  simp only [validate_two_way_arbitrage] at heq
  split at heq
  case h_1 st0 hloop => simp at heq
  case h_2 st0 hloop =>
    split at heq
    case isTrue h1 => simp at heq
    case isFalse h1 =>
      split at heq
      case isTrue h2 => simp at heq
      case isFalse h2 =>
        split at heq
        case h_1 hr => simp at heq
        case h_2 m M hr =>
          split at heq
          case isTrue h3 => simp at heq
          case isFalse h3 =>
            injection heq with hv hst
            subst hst
            refine ⟨hloop, ?_, ?_, m, M, hr, le_of_not_lt h3⟩
            · simpa using h1
            · simpa using h2

/-- What a (True, results) verdict of the three-way validator implies: the
scenario loop completed normally, no scenario had zero winners, and (unless
the scenario list was empty) the profit range over all scenarios is set with
a spread of at most $0.05. -/
theorem validate_three_way_true_spec (a d b : Outcome)
    (sa sd sb oa od ob : ℚ) (sport : String) (st : ThreeWaySt)
    (heq : validate_three_way_arbitrage a d b sa sd sb oa od ob sport = (true, st)) :
    threeWayLoop a d b sa sd sb oa od ob (get_scenarios_for_sport sport) ⟨[], none⟩ =
      .inr st ∧
    st.lossScenarios = [] ∧
    (st.profitRange = none ∨
      ∃ m M, st.profitRange = some (m, M) ∧ M - m ≤ 1/20) := by
  simp only [validate_three_way_arbitrage] at heq
  split at heq
  case h_1 st0 hloop => simp at heq
  case h_2 st0 hloop =>
    split at heq
    case isTrue h1 => simp at heq
    case isFalse h1 =>
      split at heq
      case h_1 hr =>
        injection heq with hv hst
        subst hst
        exact ⟨hloop, by simpa using h1, Or.inl hr⟩
      case h_2 m M hr =>
        split at heq
        case isTrue h3 => simp at heq
        case isFalse h3 =>
          injection heq with hv hst
          subst hst
          exact ⟨hloop, by simpa using h1, Or.inr ⟨m, M, hr, le_of_not_lt h3⟩⟩

/-- C1 counterexample: the three-way validator accepts a candidate that loses
$1.50 of its $3 total stake in EVERY scenario.  With outcomes HOME_WIN / DRAW
/ AWAY_WIN, stakes $1 each and odds 1.5 each on NHL scenarios, exactly one
leg wins every scenario with payout $1.50, so the per-scenario profit is
uniformly -$1.50; the profit spread is 0 <= $0.05 and there is no
non-negativity check, so the verdict is (True, ...) with profit range
[-1.50, -1.50], violating "min profit >= 0 within tolerance" by far more
than $0.10. -/
theorem C1_counterexample_three_way_negative_profit :
    (validate_three_way_arbitrage homeWinOutcome drawOutcome awayWinOutcome
      1 1 1 (3/2) (3/2) (3/2) "nhl").1 = true ∧
    (validate_three_way_arbitrage homeWinOutcome drawOutcome awayWinOutcome
      1 1 1 (3/2) (3/2) (3/2) "nhl").2.profitRange = some (-(3/2), -(3/2)) := by
  decide

/-- C1 amended: (two-way) whenever the two-way validator reports valid, every
winning scenario's profit exceeds -$0.10, i.e. the claimed bound holds within
the stated tolerance; (three-way) whenever the three-way validator reports
valid, the per-scenario profits all lie in a band [m, M] of width at most
$0.05, but m itself may be far below 0 (see the counterexample), so the
non-negativity part of the claim holds only for the two-way validator. -/
theorem C1_amended_min_profit :
    (∀ (a b : Outcome) (sa sb oa ob : ℚ) (sport : String),
      (validate_two_way_arbitrage a b sa sb oa ob sport).1 = true →
      ∀ sc ∈ get_scenarios_for_sport sport, ∀ wa wb : Bool,
        evaluate_outcome_in_scenario a sc = .ok wa →
        evaluate_outcome_in_scenario b sc = .ok wb →
        (wa = true ∨ wb = true) →
        -(1/10) < twoProfit sa sb oa ob wa wb) ∧
    (∀ (a d b : Outcome) (sa sd sb oa od ob : ℚ) (sport : String),
      (validate_three_way_arbitrage a d b sa sd sb oa od ob sport).1 = true →
      ∀ sc ∈ get_scenarios_for_sport sport, ∀ wa wd wb : Bool,
        evaluate_outcome_in_scenario a sc = .ok wa →
        evaluate_outcome_in_scenario d sc = .ok wd →
        evaluate_outcome_in_scenario b sc = .ok wb →
        ∃ m M, (validate_three_way_arbitrage a d b sa sd sb oa od ob sport).2.profitRange
            = some (m, M) ∧ M - m ≤ 1/20 ∧
          m ≤ threeProfit sa sd sb oa od ob wa wd wb ∧
          threeProfit sa sd sb oa od ob wa wd wb ≤ M) := by
  constructor
  · intro a b sa sb oa ob sport hv sc hsc wa wb hwa hwb hwin
    have heq : validate_two_way_arbitrage a b sa sb oa ob sport =
        (true, (validate_two_way_arbitrage a b sa sb oa ob sport).2) := by
      rw [← hv]
    obtain ⟨hloop, _, hprof, m, M, hr, hspread⟩ :=
      validate_two_way_true_spec a b sa sb oa ob sport _ heq
    obtain ⟨_, hinv', hmem⟩ := twoWayLoop_inr_spec a b sa sb oa ob _ _ _ hloop
    have hinvf := hinv' (by intro h; exact absurd rfl h)
    obtain ⟨m2, M2, hr2, hM2⟩ := hinvf hprof
    obtain ⟨_, hbound⟩ := hmem sc hsc wa wb hwa hwb
    obtain ⟨m3, M3, hr3, hm3, _⟩ := hbound hwin
    rw [hr] at hr2 hr3
    simp only [Option.some.injEq, Prod.mk.injEq] at hr2 hr3
    obtain ⟨rfl, rfl⟩ := hr2
    obtain ⟨rfl, rfl⟩ := hr3
    linarith
  · intro a d b sa sd sb oa od ob sport hv sc hsc wa wd wb hwa hwd hwb
    have heq : validate_three_way_arbitrage a d b sa sd sb oa od ob sport =
        (true, (validate_three_way_arbitrage a d b sa sd sb oa od ob sport).2) := by
      rw [← hv]
    obtain ⟨hloop, _, hrange⟩ :=
      validate_three_way_true_spec a d b sa sd sb oa od ob sport _ heq
    obtain ⟨_, hmem⟩ := threeWayLoop_inr_spec a d b sa sd sb oa od ob _ _ _ hloop
    obtain ⟨_, m, M, hr, hm, hM⟩ := hmem sc hsc wa wd wb hwa hwd hwb
    rcases hrange with hnone | ⟨m2, M2, hr2, hspread⟩
    · rw [hnone] at hr
      exact absurd hr (by simp)
    · rw [hr2] at hr
      simp only [Option.some.injEq, Prod.mk.injEq] at hr
      obtain ⟨rfl, rfl⟩ := hr
      exact ⟨m2, M2, hr2, hspread, hm, hM⟩

/-- C1 witness: a genuinely balanced two-way NHL candidate (stakes $50/$50 at
odds 2.05/2.05) validates, and the amended bound instantiated at the winning
scenario home 1 - away 0 yields a profit of $2.50 > -$0.10. -/
theorem C1_witness :
    -(1/10) < twoProfit 50 50 (41/20) (41/20) true false :=
  C1_amended_min_profit.1 homeWinOutcome awayWinOutcome 50 50 (41/20) (41/20) "nhl"
    (by decide) (.score 1 0) (by decide) true false (by decide) (by decide)
    (Or.inl rfl)

/-- C6: a candidate with more than one winning leg in any scenario is never
reported valid.  If some scenario of the sport has both two-way legs
evaluating to a win, the two-way validator's verdict is False; if some
scenario has more than one of the three legs winning, the three-way
validator's verdict is False. -/
theorem C6_overlap_rejected :
    (∀ (a b : Outcome) (sa sb oa ob : ℚ) (sport : String) (sc : Scenario),
      sc ∈ get_scenarios_for_sport sport →
      evaluate_outcome_in_scenario a sc = .ok true →
      evaluate_outcome_in_scenario b sc = .ok true →
      (validate_two_way_arbitrage a b sa sb oa ob sport).1 = false) ∧
    (∀ (a d b : Outcome) (sa sd sb oa od ob : ℚ) (sport : String) (sc : Scenario)
      (wa wd wb : Bool),
      sc ∈ get_scenarios_for_sport sport →
      evaluate_outcome_in_scenario a sc = .ok wa →
      evaluate_outcome_in_scenario d sc = .ok wd →
      evaluate_outcome_in_scenario b sc = .ok wb →
      winCount wa wd wb > 1 →
      (validate_three_way_arbitrage a d b sa sd sb oa od ob sport).1 = false) := by
  constructor
  · intro a b sa sb oa ob sport sc hsc hwa hwb
    cases hv : (validate_two_way_arbitrage a b sa sb oa ob sport).1 with
    | false => rfl
    | true =>
      exfalso
      have heq : validate_two_way_arbitrage a b sa sb oa ob sport =
          (true, (validate_two_way_arbitrage a b sa sb oa ob sport).2) := by
        rw [← hv]
      obtain ⟨hloop, _, _, _⟩ := validate_two_way_true_spec a b sa sb oa ob sport _ heq
      obtain ⟨_, _, hmem⟩ := twoWayLoop_inr_spec a b sa sb oa ob _ _ _ hloop
      exact (hmem sc hsc true true hwa hwb).1 ⟨rfl, rfl⟩
  · intro a d b sa sd sb oa od ob sport sc wa wd wb hsc hwa hwd hwb hcnt
    cases hv : (validate_three_way_arbitrage a d b sa sd sb oa od ob sport).1 with
    | false => rfl
    | true =>
      exfalso
      have heq : validate_three_way_arbitrage a d b sa sd sb oa od ob sport =
          (true, (validate_three_way_arbitrage a d b sa sd sb oa od ob sport).2) := by
        rw [← hv]
      obtain ⟨hloop, _, _⟩ :=
        validate_three_way_true_spec a d b sa sd sb oa od ob sport _ heq
      obtain ⟨_, hmem⟩ := threeWayLoop_inr_spec a d b sa sd sb oa od ob _ _ _ hloop
      have hle := (hmem sc hsc wa wd wb hwa hwd hwb).1
      omega

/-- C6 witness: a HOME_WIN enum leg and a raw "HOME" string leg both win the
NHL scenario home 1 - away 0, and the two-way validator indeed rejects the
candidate. -/
theorem C6_witness :
    (validate_two_way_arbitrage homeWinOutcome ⟨.inr "HOME", none, none⟩
      1 1 2 2 "nhl").1 = false :=
  C6_overlap_rejected.1 homeWinOutcome ⟨.inr "HOME", none, none⟩ 1 1 2 2 "nhl"
    (.score 1 0) (by decide) (by decide) (by decide)

/-- Every sport string selects one of the five fixed scenario lists. -/
theorem get_scenarios_cases (sport : String) :
    get_scenarios_for_sport sport = NHL_SCENARIOS.map (fun p => .score p.1 p.2) ∨
    get_scenarios_for_sport sport = SOCCER_SCENARIOS.map (fun p => .score p.1 p.2) ∨
    get_scenarios_for_sport sport = BASKETBALL_SCENARIOS.map (fun p => .score p.1 p.2) ∨
    get_scenarios_for_sport sport = TENNIS_SCENARIOS ∨
    get_scenarios_for_sport sport = MMA_SCENARIOS := by
  rw [get_scenarios_for_sport]
  split_ifs <;> tauto

/-- C5 counterexample: the moneyline draw exception is order-sensitive for
enum outcomes.  The unordered outcome set {AWAY_WIN, HOME_WIN} passed as
(outcome_a = AWAY_WIN, outcome_b = HOME_WIN) on an NHL market is REJECTED:
is_moneyline requires outcome_a = HOME_WIN and outcome_b = AWAY_WIN in that
order, so the uncovered tie scenarios are not exempted, contradicting the
claim that any unordered {A-side, B-side} pair on a draw-possible sport is
valid. -/
theorem C5_counterexample_order_sensitive :
    validate_two_way_partition awayWinOutcome homeWinOutcome "nhl" = .ok false := by
  decide

/-- C5 amended: the draw exception applies to the enum pair only in the order
(HOME_WIN, AWAY_WIN), for which the partition validator returns valid on
every sport; in the swapped order, or for any outcome pair and scenario with
zero winners for which the moneyline-and-draw exemption does not apply, the
partition is not reported valid. -/
theorem C5_partition_moneyline :
    (∀ sport : String,
      validate_two_way_partition homeWinOutcome awayWinOutcome sport = .ok true) ∧
    (∀ (a b : Outcome) (sport : String) (sc : Scenario),
      sc ∈ get_scenarios_for_sport sport →
      evaluate_outcome_in_scenario a sc = .ok false →
      evaluate_outcome_in_scenario b sc = .ok false →
      ¬(is_moneyline a b = true ∧ isDrawScenario sc = true) →
      validate_two_way_partition a b sport ≠ .ok true) := by
  constructor
  · intro sport
    rcases get_scenarios_cases sport with h | h | h | h | h <;>
      rw [validate_two_way_partition, h] <;> decide
  · intro a b sport sc hsc hwa hwb hexempt hvalid
    rw [validate_two_way_partition, partition_check] at hvalid
    split at hvalid
    case h_1 => exact Except.noConfusion hvalid
    case h_2 cov uncovered bothWin hloop =>
      obtain ⟨_, hmem⟩ := partitionLoop_ok_spec a b _ 0 [] [] _ hloop
      have huncov : sc ∈ uncovered := hmem sc hsc false false hwa hwb rfl rfl
      by_cases hb : bothWin.isEmpty = true
      · rw [if_neg (by simp [hb])] at hvalid
        by_cases hml : is_moneyline a b = true
        · rw [if_pos hml] at hvalid
          have hnd : isDrawScenario sc = false := by
            cases hd : isDrawScenario sc
            · rfl
            · exact absurd ⟨hml, hd⟩ hexempt
          have hmemf : sc ∈ uncovered.filter (fun s => !isDrawScenario s) :=
            List.mem_filter.mpr ⟨huncov, by simp [hnd]⟩
          cases hfl : uncovered.filter (fun s => !isDrawScenario s) with
          | nil =>
            rw [hfl] at hmemf
            exact absurd hmemf (by simp)
          | cons x xs =>
            rw [hfl] at hvalid
            simp at hvalid
        · rw [if_neg hml] at hvalid
          cases hul : uncovered with
          | nil =>
            rw [hul] at huncov
            exact absurd huncov (by simp)
          | cons x xs =>
            rw [hul] at hvalid
            simp at hvalid
      · rw [if_pos (by simpa using hb)] at hvalid
        exact absurd (Except.ok.inj hvalid) (by simp)

/-- C5 witness: the enum pair (HOME_WIN, AWAY_WIN) is a valid partition on
the NHL market (draws accepted as uncovered), while the non-exempt pair
(HOME_WIN, DRAW) is not valid because the scenario home 0 - away 1 has no
winner. -/
theorem C5_witness :
    validate_two_way_partition homeWinOutcome awayWinOutcome "icehockey_nhl" = .ok true ∧
    validate_two_way_partition homeWinOutcome drawOutcome "nhl" ≠ .ok true :=
  ⟨C5_partition_moneyline.1 "icehockey_nhl",
   C5_partition_moneyline.2 homeWinOutcome drawOutcome "nhl" (.score 0 1)
     (by decide) (by decide) (by decide) (by decide)⟩
